import Mathlib

/-!
Shallow embedding of the chassis/VIN generation core
(`src/lib/vin-generator.ts`, `src/lib/chassis-sequence-manager.ts`,
`src/lib/kv-sequence-manager.ts`, `src/lib/vin-service.ts`).

Strings are modelled as `List Char`; the JS `Map<string, number>` of the
sequence manager (and the Redis key space of the KV manager) is modelled as an
association list `Store`.  Functions that mutate the store take it as an
argument and return the updated store; a thrown JS `Error` is an `Except.error`
carrying a tag naming the throw site.  `console.warn` emissions are modelled as
a returned `Bool` flag.
-/

namespace ChassisXml

/-- JS strings, modelled as lists of characters. -/
abbrev Str := List Char

/-- `ChassisType` enum from `src/lib/types.ts`. -/
inductive ChassisType
  | vin_iso3779
  | manufacturer
deriving DecidableEq, Repr

/-- Tags for the distinct messages pushed into `errors` by
`ChassisValidator.validateVIN` (`src/lib/vin-generator.ts`). -/
inductive ValidationIssue
  | badLength
  | nonAlphanumeric
  | forbiddenChars
  | checksumMismatch
  | checksumComputeFailed
deriving DecidableEq, Repr

/-- `ValidationResult` from `src/lib/types.ts`. -/
structure ValidationResult where
  isValid : Bool
  chassisType : Option ChassisType
  errors : List ValidationIssue
  checksumValid : Option Bool
deriving DecidableEq, Repr

namespace ChassisValidator

/-- `VIN_FORBIDDEN` set from `ChassisValidator`. -/
def VIN_FORBIDDEN : List Char := ['I', 'O', 'Q', 'i', 'o', 'q']

/-- `VIN_WEIGHTS` table from `ChassisValidator` (ISO 3779 position weights). -/
def VIN_WEIGHTS : List Nat := [8, 7, 6, 5, 4, 3, 2, 10, 0, 9, 8, 7, 6, 5, 4, 3, 2]

/-- `VIN_CHAR_VALUES` table from `ChassisValidator`: a partial map from
characters to numeric values; `none` models absence of the key, and the call
site reads it with `?? 0`.  The ten digit keys of the source table (each digit
maps to its own value) are listed here in descending order; the order of the
disjoint match arms is irrelevant. -/
def VIN_CHAR_VALUES : Char → Option Nat
  | 'A' => some 1 | 'B' => some 2 | 'C' => some 3 | 'D' => some 4
  | 'E' => some 5 | 'F' => some 6 | 'G' => some 7 | 'H' => some 8
  | 'J' => some 1 | 'K' => some 2 | 'L' => some 3 | 'M' => some 4
  | 'N' => some 5 | 'P' => some 7 | 'R' => some 9
  | 'S' => some 2 | 'T' => some 3 | 'U' => some 4 | 'V' => some 5
  | 'W' => some 6 | 'X' => some 7 | 'Y' => some 8 | 'Z' => some 9
  | '9' => some 9 | '8' => some 8 | '7' => some 7 | '6' => some 6
  | '5' => some 5 | '4' => some 4 | '3' => some 3 | '2' => some 2
  | '1' => some 1 | '0' => some 0
  | _ => none

/-- The accumulation loop of `calculateVINChecksum`: walks the (already
uppercased) characters together with the weights, carrying the position index
`i`, and skips position 8 (`if (i === 8) continue`). -/
def vinWeightedSum : Nat → Str → List Nat → Nat
  | _, [], _ => 0
  | _, _ :: _, [] => 0
  | i, c :: cs, w :: ws =>
    (if i = 8 then 0 else (VIN_CHAR_VALUES c).getD 0 * w) + vinWeightedSum (i + 1) cs ws

/-- `ChassisValidator.calculateVINChecksum`: throws when the input is not
17 characters long; otherwise sums value times weight over all positions except
index 8, takes the sum mod 11, and yields 'X' for remainder 10 and the decimal
digit character otherwise. -/
def calculateVINChecksum (vin : Str) : Except String Char :=
  if vin.length ≠ 17 then
    .error "VIN doit avoir 17 caracteres"
  else
    let upperVin := vin.map Char.toUpper
    let total := vinWeightedSum 0 upperVin VIN_WEIGHTS
    let checksum := total % 11
    .ok (if checksum = 10 then 'X' else Char.ofNat (48 + checksum))

/-- The regex `/^[A-Za-z0-9]+$/` tested character-wise. -/
def isAlphanumericChar (c : Char) : Bool :=
  ('A' ≤ c && c ≤ 'Z') || ('a' ≤ c && c ≤ 'z') || ('0' ≤ c && c ≤ '9')

/-- `ChassisValidator.validateVIN`. -/
def validateVIN (vin : Str) (checkChecksum : Bool := true) : ValidationResult :=
  if vin.length ≠ 17 then
    { isValid := false, chassisType := some ChassisType.vin_iso3779,
      errors := [ValidationIssue.badLength], checksumValid := none }
  else
    let errors0 : List ValidationIssue :=
      if vin.all isAlphanumericChar then [] else [ValidationIssue.nonAlphanumeric]
    let forbiddenFound := vin.filter fun c => VIN_FORBIDDEN.contains c
    let errors1 :=
      errors0 ++ (if 0 < forbiddenFound.length then [ValidationIssue.forbiddenChars] else [])
    if checkChecksum && errors1.isEmpty then
      match calculateVINChecksum vin with
      | .ok calculated =>
        let actual := Char.toUpper (vin.getD 8 ' ')
        if calculated = actual then
          { isValid := errors1.isEmpty, chassisType := some ChassisType.vin_iso3779,
            errors := errors1, checksumValid := some true }
        else
          { isValid := false, chassisType := some ChassisType.vin_iso3779,
            errors := errors1 ++ [ValidationIssue.checksumMismatch], checksumValid := some false }
      | .error _ =>
        { isValid := false, chassisType := some ChassisType.vin_iso3779,
          errors := errors1 ++ [ValidationIssue.checksumComputeFailed],
          checksumValid := some false }
    else
      { isValid := errors1.isEmpty, chassisType := some ChassisType.vin_iso3779,
        errors := errors1, checksumValid := none }

end ChassisValidator

/-- Spec-side restatement of the checksum algorithm, written from the words of
spec.md section 4.1 / claim C2: assign every character (case-insensitively) its
value in the fixed table with absent characters contributing 0, multiply each
value by the per-position weight (the weight at index 8, the checksum position,
is 0), sum all products, take the sum mod 11, yield "X" for remainder 10 and
the decimal digit otherwise; inputs whose length is not 17 raise an error. -/
def specComputeCheck (vin : Str) : Except String Char :=
  if vin.length ≠ 17 then
    .error "VIN doit avoir 17 caracteres"
  else
    let values := vin.map fun c => (ChassisValidator.VIN_CHAR_VALUES (Char.toUpper c)).getD 0
    let total := (List.zipWith (fun v w => v * w) values ChassisValidator.VIN_WEIGHTS).sum
    let remainder := total % 11
    .ok (if remainder = 10 then 'X' else Char.ofNat (48 + remainder))

/-- Tags for the distinct `throw new Error(...)` sites of
`VINGenerator.generate`. -/
inductive GenError
  | wmiLength
  | vdsLength
  | yearNotSupported
  | plantLength
  | sequenceOutOfRange
  | checksumFailed
  | invalidGenerated
deriving DecidableEq, Repr

namespace VINGenerator

/-- `VINGenerator.YEAR_CODES` table (model years 2001-2030). -/
def YEAR_CODES : Nat → Option Char
  | 2001 => some '1' | 2002 => some '2' | 2003 => some '3' | 2004 => some '4'
  | 2005 => some '5' | 2006 => some '6' | 2007 => some '7' | 2008 => some '8'
  | 2009 => some '9'
  | 2010 => some 'A' | 2011 => some 'B' | 2012 => some 'C' | 2013 => some 'D'
  | 2014 => some 'E' | 2015 => some 'F' | 2016 => some 'G' | 2017 => some 'H'
  | 2018 => some 'J' | 2019 => some 'K' | 2020 => some 'L' | 2021 => some 'M'
  | 2022 => some 'N' | 2023 => some 'P' | 2024 => some 'R' | 2025 => some 'S'
  | 2026 => some 'T' | 2027 => some 'V' | 2028 => some 'W' | 2029 => some 'X'
  | 2030 => some 'Y'
  | _ => none

/-- JS `String.prototype.padStart(len, c)`: prepends copies of `c` until the
length reaches `len`; a string already at least `len` long is unchanged. -/
def padStart (s : Str) (len : Nat) (c : Char) : Str :=
  List.replicate (len - s.length) c ++ s

/-- `VINGenerator.generate`.  The sequence argument is an `Int` because the JS
parameter is an arbitrary number; `Nat.toDigits 10` models `String(sequence)`
on the in-range (positive) path. -/
def generate (wmi vds : Str) (year : Nat) (plant : Str) (sequence : Int)
    (validateOutput : Bool := true) : Except GenError Str :=
  if wmi.length ≠ 3 then .error GenError.wmiLength
  else if vds.length ≠ 5 then .error GenError.vdsLength
  else
    match YEAR_CODES year with
    | none => .error GenError.yearNotSupported
    | some yearCode =>
      if plant.length ≠ 1 then .error GenError.plantLength
      else if sequence < 1 ∨ 999999 < sequence then .error GenError.sequenceOutOfRange
      else
        let sequenceStr := padStart (Nat.toDigits 10 sequence.toNat) 6 '0'
        let vinTemp := wmi.map Char.toUpper ++ vds.map Char.toUpper ++ ['X'] ++
          [Char.toUpper yearCode] ++ plant.map Char.toUpper ++ sequenceStr
        match ChassisValidator.calculateVINChecksum vinTemp with
        | .error _ => .error GenError.checksumFailed
        | .ok checksum =>
          let vin := wmi.map Char.toUpper ++ vds.map Char.toUpper ++ [checksum] ++
            [Char.toUpper yearCode] ++ plant.map Char.toUpper ++ sequenceStr
          if validateOutput then
            if (ChassisValidator.validateVIN vin true).isValid then .ok vin
            else .error GenError.invalidGenerated
          else .ok vin

end VINGenerator

/-- The persisted prefix-to-counter mapping (`Map<string, number>` of
`ChassisSequenceManager`, resp. the Redis key space of `KVSequenceManager`). -/
abbrev Store := List (Str × Nat)

/-- `Map.get` / Redis `GET`. -/
def storeGet : Store → Str → Option Nat
  | [], _ => none
  | (k, v) :: rest, p => if k = p then some v else storeGet rest p

/-- `Map.set` / Redis `SET`: replaces the binding if the key is present,
appends it otherwise. -/
def storeSet : Store → Str → Nat → Store
  | [], p, v => [(p, v)]
  | (k, w) :: rest, p, v =>
    if k = p then (k, v) :: rest else (k, w) :: storeSet rest p v

namespace ChassisSequenceManager

/-- `ChassisSequenceManager.getNextSequence`: reads the current counter
(0 for a fresh key), increments it, warns (second component) when the new value
exceeds 999999, persists the new value, and returns it.  It never throws. -/
def getNextSequence (s : Store) (pfx : Str) : Nat × Bool × Store :=
  let current := (storeGet s pfx).getD 0
  let nextSeq := current + 1
  (nextSeq, decide (999999 < nextSeq), storeSet s pfx nextSeq)

/-- `ChassisSequenceManager.getCurrentSequence`: a pure read — the source only
loads the file and reads the map, performing no write, which the embedding
reflects by not returning a store. -/
def getCurrentSequence (s : Store) (pfx : Str) : Nat :=
  (storeGet s pfx).getD 0

/-- `ChassisSequenceManager.resetSequence`: force-sets the counter. -/
def resetSequence (s : Store) (pfx : Str) (value : Nat := 0) : Store :=
  storeSet s pfx value

end ChassisSequenceManager

namespace KVSequenceManager

/-- The `SEQUENCE_PREFIX` key namespace constant, `"chassis_seq:"`. -/
def kvKeyHead : Str := ['c', 'h', 'a', 's', 's', 'i', 's', '_', 's', 'e', 'q', ':']

/-- `KVSequenceManager.getNextSequenceAsync` (configured instance): Redis
`INCR` on the namespaced key (a missing key counts as 0), then a warning
(second component) when the returned value exceeds 999999.  It never throws. -/
def getNextSequenceAsync (s : Store) (pfx : Str) : Nat × Bool × Store :=
  let key := kvKeyHead ++ pfx
  let nextSeq := (storeGet s key).getD 0 + 1
  (nextSeq, decide (999999 < nextSeq), storeSet s key nextSeq)

/-- `KVSequenceManager.getCurrentSequenceAsync` (configured instance): Redis
`GET` with `?? 0`; a pure read, reflected by not returning a store. -/
def getCurrentSequenceAsync (s : Store) (pfx : Str) : Nat :=
  (storeGet s (kvKeyHead ++ pfx)).getD 0

/-- `KVSequenceManager.resetSequenceAsync` (configured instance): Redis `SET`. -/
def resetSequenceAsync (s : Store) (pfx : Str) (value : Nat := 0) : Store :=
  storeSet s (kvKeyHead ++ pfx) value

end KVSequenceManager

namespace ChassisFactory

/-- `ChassisFactory.createUniqueVIN` with an injected
`ChassisSequenceManager`: builds the prefix, allocates the next sequence
(persisting the increment), then generates the VIN with it.  Note the counter
mutation happens before `generate` can reject, so the error branch carries the
already-mutated store. -/
def createUniqueVIN (wmi vds : Str) (year : Nat) (plant : Str) (s : Store) :
    Except GenError Str × Store :=
  match VINGenerator.YEAR_CODES year with
  | none => (.error GenError.yearNotSupported, s)
  | some yearCode =>
    let pfx := wmi ++ vds ++ [yearCode] ++ plant
    let r := ChassisSequenceManager.getNextSequence s pfx
    (VINGenerator.generate wmi vds year plant (r.1 : Int) true, r.2.2)

/-- `ChassisFactory.createUniqueVINBatch`: `quantity` successive calls to
`createUniqueVIN`, collecting the codes in order; a thrown error propagates
with the store as already mutated. -/
def createUniqueVINBatch (wmi vds : Str) (year : Nat) (plant : Str) (quantity : Nat)
    (s : Store) : Except GenError (List Str) × Store :=
  match quantity with
  | 0 => (.ok [], s)
  | Nat.succ q =>
    match createUniqueVIN wmi vds year plant s with
    | (.ok vin, s2) =>
      match createUniqueVINBatch wmi vds year plant q s2 with
      | (.ok vins, s3) => (.ok (vin :: vins), s3)
      | (.error e, s3) => (.error e, s3)
    | (.error e, s2) => (.error e, s2)

end ChassisFactory

/-- Tags for the distinct error sites reachable from
`VINService.generateVINs`. -/
inductive VINServiceError
  | quantityRange
  | wmiLength
  | vdsLength
  | yearNotSupported
  | plantCodeLength
  | gen (e : GenError)
deriving DecidableEq, Repr

/-- `VINGenerationMetadata` from `src/lib/types.ts` (the `prefix` field is
named `pfx` because `prefix` is a Lean keyword). -/
structure VINGenerationMetadata where
  quantity : Nat
  wmi : Str
  vds : Str
  year : Nat
  plantCode : Str
  pfx : Str
  startSequence : Int
  endSequence : Nat
deriving DecidableEq, Repr

namespace VINService

/-- `VINService.generateVINs`: validates the request (quantity bounds, field
lengths, supported year), generates the batch, then reads the counter back to
build the metadata. -/
def generateVINs (quantity : Nat) (wmi vds : Str) (year : Nat) (plantCode : Str)
    (s : Store) :
    Except VINServiceError (List Str × VINGenerationMetadata) × Store :=
  if quantity < 1 ∨ 10000 < quantity then (.error VINServiceError.quantityRange, s)
  else if wmi.length ≠ 3 then (.error VINServiceError.wmiLength, s)
  else if vds.length ≠ 5 then (.error VINServiceError.vdsLength, s)
  else
    match VINGenerator.YEAR_CODES year with
    | none => (.error VINServiceError.yearNotSupported, s)
    | some yearCode =>
      if plantCode.length ≠ 1 then (.error VINServiceError.plantCodeLength, s)
      else
        match ChassisFactory.createUniqueVINBatch wmi vds year plantCode quantity s with
        | (.error e, s2) => (.error (VINServiceError.gen e), s2)
        | (.ok vins, s2) =>
          let pfx := wmi ++ vds ++ [yearCode] ++ plantCode
          let currentSeq := ChassisSequenceManager.getCurrentSequence s2 pfx
          (.ok (vins,
            { quantity := quantity, wmi := wmi, vds := vds, year := year,
              plantCode := plantCode, pfx := pfx,
              startSequence := (currentSeq : Int) - (quantity : Int) + 1,
              endSequence := currentSeq }), s2)

end VINService

/-- `n` successive single-threaded calls to
`ChassisSequenceManager.getNextSequence` for one prefix, collecting the
returned values in order. -/
def allocateRun (pfx : Str) : Nat → Store → List Nat × Store
  | 0, s => ([], s)
  | Nat.succ n, s =>
    let r := ChassisSequenceManager.getNextSequence s pfx
    let rest := allocateRun pfx n r.2.2
    (r.1 :: rest.1, rest.2)

/-! Concrete values used by the witnesses below: the batch produced by
`VINService.generateVINs 5 "LZS" "HCKZS" 2028 "S"` on an empty store. -/

def vinW1 : Str := ['L', 'Z', 'S', 'H', 'C', 'K', 'Z', 'S', '3', 'W', 'S', '0', '0', '0', '0', '0', '1']

def vinW2 : Str := ['L', 'Z', 'S', 'H', 'C', 'K', 'Z', 'S', '5', 'W', 'S', '0', '0', '0', '0', '0', '2']

def vinW3 : Str := ['L', 'Z', 'S', 'H', 'C', 'K', 'Z', 'S', '7', 'W', 'S', '0', '0', '0', '0', '0', '3']

def vinW4 : Str := ['L', 'Z', 'S', 'H', 'C', 'K', 'Z', 'S', '9', 'W', 'S', '0', '0', '0', '0', '0', '4']

def vinW5 : Str := ['L', 'Z', 'S', 'H', 'C', 'K', 'Z', 'S', '0', 'W', 'S', '0', '0', '0', '0', '0', '5']

def mdW : VINGenerationMetadata :=
  { quantity := 5, wmi := ['L', 'Z', 'S'], vds := ['H', 'C', 'K', 'Z', 'S'], year := 2028,
    plantCode := ['S'], pfx := ['L', 'Z', 'S', 'H', 'C', 'K', 'Z', 'S', 'W', 'S'],
    startSequence := 1, endSequence := 5 }

/-! ## Store lemmas -/

theorem storeGet_storeSet_self (s : Store) (p : Str) (v : Nat) :
    storeGet (storeSet s p v) p = some v := by
  induction s with
  | nil => simp [storeGet, storeSet]
  | cons kv rest ih =>
    obtain ⟨k, w⟩ := kv
    by_cases h : k = p
    · simp [storeGet, storeSet, h]
    · simp [storeGet, storeSet, h, ih]

theorem storeGet_storeSet_ne (s : Store) (p q : Str) (v : Nat) (h : q ≠ p) :
    storeGet (storeSet s p v) q = storeGet s q := by
  have h2 : p ≠ q := fun hh => h hh.symm
  induction s with
  | nil => simp [storeGet, storeSet, h2]
  | cons kv rest ih =>
    obtain ⟨k, w⟩ := kv
    by_cases hk : k = p
    · subst hk
      simp [storeGet, storeSet, h2]
    · simp only [storeSet, if_neg hk]
      by_cases hq : k = q
      · simp [storeGet, hq]
      · simp [storeGet, hq, ih]

/-! ## C1: sequential allocation returns 1, 2, ..., N -/

theorem allocateRun_values (pfx : Str) (n : Nat) :
    ∀ s : Store, (allocateRun pfx n s).1
      = List.range' (ChassisSequenceManager.getCurrentSequence s pfx + 1) n := by
  induction n with
  | zero => intro s; rfl
  | succ n ih =>
    intro s
    have h2 : ChassisSequenceManager.getCurrentSequence
        (ChassisSequenceManager.getNextSequence s pfx).2.2 pfx
        = ChassisSequenceManager.getCurrentSequence s pfx + 1 := by
      simp [ChassisSequenceManager.getNextSequence, ChassisSequenceManager.getCurrentSequence,
        storeGet_storeSet_self]
    rw [List.range'_succ]
    simp only [allocateRun]
    rw [ih, h2]
    rfl

/-- C1: for every prefix and every N ≥ 1, starting from a store in which the
prefix has no counter, N sequential single-threaded calls to
`ChassisSequenceManager.getNextSequence` return exactly 1, 2, ..., N in order
(`List.range' 1 n`), with no gaps and no repeats. -/
theorem allocateNext_sequential_run (s : Store) (pfx : Str) (n : Nat)
    (hfresh : storeGet s pfx = none) (_hn : 1 ≤ n) :
    (allocateRun pfx n s).1 = List.range' 1 n := by
  have h := allocateRun_values pfx n s
  rw [ChassisSequenceManager.getCurrentSequence, hfresh] at h
  exact h

theorem allocateNext_sequential_run_witness :
    (allocateRun ['A', 'B'] 3 []).1 = List.range' 1 3 :=
  allocateNext_sequential_run [] ['A', 'B'] 3 rfl (by decide)

/-! ## C2: the checksum codec refines its specification -/

theorem vinWeightedSum_eq_zipWith (l : Str) (h : l.length = 17) :
    ChassisValidator.vinWeightedSum 0 l ChassisValidator.VIN_WEIGHTS
      = (List.zipWith (fun v w => v * w)
          (l.map fun c => (ChassisValidator.VIN_CHAR_VALUES c).getD 0)
          ChassisValidator.VIN_WEIGHTS).sum := by
  obtain ⟨c0, l, rfl⟩ := List.exists_of_length_succ l h
  simp only [List.length_cons, Nat.succ.injEq] at h
  obtain ⟨c1, l, rfl⟩ := List.exists_of_length_succ l h
  simp only [List.length_cons, Nat.succ.injEq] at h
  obtain ⟨c2, l, rfl⟩ := List.exists_of_length_succ l h
  simp only [List.length_cons, Nat.succ.injEq] at h
  obtain ⟨c3, l, rfl⟩ := List.exists_of_length_succ l h
  simp only [List.length_cons, Nat.succ.injEq] at h
  obtain ⟨c4, l, rfl⟩ := List.exists_of_length_succ l h
  simp only [List.length_cons, Nat.succ.injEq] at h
  obtain ⟨c5, l, rfl⟩ := List.exists_of_length_succ l h
  simp only [List.length_cons, Nat.succ.injEq] at h
  obtain ⟨c6, l, rfl⟩ := List.exists_of_length_succ l h
  simp only [List.length_cons, Nat.succ.injEq] at h
  obtain ⟨c7, l, rfl⟩ := List.exists_of_length_succ l h
  simp only [List.length_cons, Nat.succ.injEq] at h
  obtain ⟨c8, l, rfl⟩ := List.exists_of_length_succ l h
  simp only [List.length_cons, Nat.succ.injEq] at h
  obtain ⟨c9, l, rfl⟩ := List.exists_of_length_succ l h
  simp only [List.length_cons, Nat.succ.injEq] at h
  obtain ⟨c10, l, rfl⟩ := List.exists_of_length_succ l h
  simp only [List.length_cons, Nat.succ.injEq] at h
  obtain ⟨c11, l, rfl⟩ := List.exists_of_length_succ l h
  simp only [List.length_cons, Nat.succ.injEq] at h
  obtain ⟨c12, l, rfl⟩ := List.exists_of_length_succ l h
  simp only [List.length_cons, Nat.succ.injEq] at h
  obtain ⟨c13, l, rfl⟩ := List.exists_of_length_succ l h
  simp only [List.length_cons, Nat.succ.injEq] at h
  obtain ⟨c14, l, rfl⟩ := List.exists_of_length_succ l h
  simp only [List.length_cons, Nat.succ.injEq] at h
  obtain ⟨c15, l, rfl⟩ := List.exists_of_length_succ l h
  simp only [List.length_cons, Nat.succ.injEq] at h
  obtain ⟨c16, l, rfl⟩ := List.exists_of_length_succ l h
  simp only [List.length_cons, Nat.succ.injEq] at h
  have hl : l = [] := List.eq_nil_of_length_eq_zero h
  subst hl
  simp [ChassisValidator.vinWeightedSum, ChassisValidator.VIN_WEIGHTS]

/-- C2: `ChassisValidator.calculateVINChecksum` agrees with the spec-side
`specComputeCheck` on every input: for 17-character inputs it maps each
character case-insensitively through the fixed value table (absent characters,
including I, O, Q, contribute 0 without error), multiplies by the per-position
weights (weight 0 at checksum index 8), sums, takes mod 11, and yields 'X' for
remainder 10 and the decimal digit otherwise; any other length is an error. -/
theorem calculateVINChecksum_eq_specComputeCheck (vin : Str) :
    ChassisValidator.calculateVINChecksum vin = specComputeCheck vin := by
  by_cases h : vin.length = 17
  · have hmap : (vin.map Char.toUpper).length = 17 := by simpa using h
    have key := vinWeightedSum_eq_zipWith (vin.map Char.toUpper) hmap
    simp only [ChassisValidator.calculateVINChecksum, specComputeCheck, h, ne_eq,
      not_true_eq_false, if_false]
    rw [key, List.map_map]
    rfl
  · simp [ChassisValidator.calculateVINChecksum, specComputeCheck, h]

/-! ## C7: soft limit at 999999 warns but still returns -/

/-- C7: for every prefix whose counter has reached or exceeded 999999, a call
to allocateNext does not throw (both embeddings are total functions with no
error component): it still returns counter + 1 and sets the warning flag, on
both the file-backed (`ChassisSequenceManager.getNextSequence`) and the
distributed (`KVSequenceManager.getNextSequenceAsync`) backend. -/
theorem allocateNext_soft_limit_no_throw (s t : Store) (p q : Str) (c d : Nat)
    (hc : ChassisSequenceManager.getCurrentSequence s p = c) (hclim : 999999 ≤ c)
    (hd : KVSequenceManager.getCurrentSequenceAsync t q = d) (hdlim : 999999 ≤ d) :
    (ChassisSequenceManager.getNextSequence s p).1 = c + 1 ∧
    (ChassisSequenceManager.getNextSequence s p).2.1 = true ∧
    (KVSequenceManager.getNextSequenceAsync t q).1 = d + 1 ∧
    (KVSequenceManager.getNextSequenceAsync t q).2.1 = true := by
  subst hc hd
  refine ⟨rfl, ?_, rfl, ?_⟩
  · simp [ChassisSequenceManager.getNextSequence,
      ChassisSequenceManager.getCurrentSequence] at hclim ⊢
    omega
  · simp [KVSequenceManager.getNextSequenceAsync,
      KVSequenceManager.getCurrentSequenceAsync] at hdlim ⊢
    omega

theorem allocateNext_soft_limit_no_throw_witness :
    (ChassisSequenceManager.getNextSequence [(['A'], 999999)] ['A']).1 = 999999 + 1 ∧
    (ChassisSequenceManager.getNextSequence [(['A'], 999999)] ['A']).2.1 = true ∧
    (KVSequenceManager.getNextSequenceAsync
      [(KVSequenceManager.kvKeyHead ++ ['B'], 1000005)] ['B']).1 = 1000005 + 1 ∧
    (KVSequenceManager.getNextSequenceAsync
      [(KVSequenceManager.kvKeyHead ++ ['B'], 1000005)] ['B']).2.1 = true :=
  allocateNext_soft_limit_no_throw _ _ _ _ _ _ rfl (by decide) rfl (by decide)

/-! ## C8: readCurrent returns the persisted value or 0, without incrementing -/

/-- C8: on both backends, the current-sequence read returns the counter's last
persisted value, or 0 if the prefix has never been allocated.  Both embeddings
are pure functions of the store that return no updated store, mirroring that
the source reads perform no write and in particular no increment. -/
theorem getCurrentSequence_reads_persisted (s t : Store) (p q : Str) (v w : Nat) :
    (storeGet s p = none → ChassisSequenceManager.getCurrentSequence s p = 0) ∧
    (storeGet s p = some v → ChassisSequenceManager.getCurrentSequence s p = v) ∧
    (storeGet t (KVSequenceManager.kvKeyHead ++ q) = none →
      KVSequenceManager.getCurrentSequenceAsync t q = 0) ∧
    (storeGet t (KVSequenceManager.kvKeyHead ++ q) = some w →
      KVSequenceManager.getCurrentSequenceAsync t q = w) := by
  refine ⟨?_, ?_, ?_, ?_⟩ <;> intro h <;>
    simp [ChassisSequenceManager.getCurrentSequence,
      KVSequenceManager.getCurrentSequenceAsync, h]

theorem getCurrentSequence_reads_persisted_witness :
    ChassisSequenceManager.getCurrentSequence [(['A'], 7)] ['B'] = 0 ∧
    ChassisSequenceManager.getCurrentSequence [(['A'], 7)] ['A'] = 7 ∧
    KVSequenceManager.getCurrentSequenceAsync [] ['C'] = 0 ∧
    KVSequenceManager.getCurrentSequenceAsync
      [(KVSequenceManager.kvKeyHead ++ ['C'], 9)] ['C'] = 9 :=
  ⟨(getCurrentSequence_reads_persisted [(['A'], 7)] [] ['B'] ['C'] 0 0).1 rfl,
   (getCurrentSequence_reads_persisted [(['A'], 7)] [] ['A'] ['C'] 7 0).2.1 rfl,
   (getCurrentSequence_reads_persisted [] [] ['B'] ['C'] 0 0).2.2.1 rfl,
   (getCurrentSequence_reads_persisted []
     [(KVSequenceManager.kvKeyHead ++ ['C'], 9)] ['B'] ['C'] 0 9).2.2.2 rfl⟩

/-! ## C9: reset then allocate -/

/-- C9: for every store, prefix and value v, after resetting the prefix's
counter to v the next allocation for that prefix returns v + 1, on both
backends. -/
theorem reset_then_allocateNext (s : Store) (p : Str) (v : Nat) :
    (ChassisSequenceManager.getNextSequence
      (ChassisSequenceManager.resetSequence s p v) p).1 = v + 1 ∧
    (KVSequenceManager.getNextSequenceAsync
      (KVSequenceManager.resetSequenceAsync s p v) p).1 = v + 1 := by
  constructor
  · simp [ChassisSequenceManager.getNextSequence, ChassisSequenceManager.resetSequence,
      storeGet_storeSet_self]
  · simp [KVSequenceManager.getNextSequenceAsync, KVSequenceManager.resetSequenceAsync,
      storeGet_storeSet_self]

/-! ## C10: allocation frame and read-back -/

/-- C10: a call to `ChassisSequenceManager.getNextSequence` for prefix p
modifies only p's counter — every other prefix's counter is unchanged — and
immediately afterwards `getCurrentSequence` for p returns exactly the value the
allocation returned. -/
theorem allocateNext_frame (s : Store) (p q : Str) (h : q ≠ p) :
    storeGet (ChassisSequenceManager.getNextSequence s p).2.2 q = storeGet s q ∧
    ChassisSequenceManager.getCurrentSequence
      (ChassisSequenceManager.getNextSequence s p).2.2 p
      = (ChassisSequenceManager.getNextSequence s p).1 := by
  constructor
  · simp [ChassisSequenceManager.getNextSequence, storeGet_storeSet_ne _ _ _ _ h]
  · simp [ChassisSequenceManager.getNextSequence, ChassisSequenceManager.getCurrentSequence,
      storeGet_storeSet_self]

theorem allocateNext_frame_witness :
    storeGet (ChassisSequenceManager.getNextSequence [(['B'], 5)] ['A']).2.2 ['B']
      = storeGet [(['B'], 5)] ['B'] ∧
    ChassisSequenceManager.getCurrentSequence
      (ChassisSequenceManager.getNextSequence [(['B'], 5)] ['A']).2.2 ['A']
      = (ChassisSequenceManager.getNextSequence [(['B'], 5)] ['A']).1 :=
  allocateNext_frame [(['B'], 5)] ['A'] ['B'] (by decide)

/-! ## Validator and generator lemmas -/

theorem validateVIN_of_isValid (vin : Str)
    (h : (ChassisValidator.validateVIN vin true).isValid = true) :
    ChassisValidator.validateVIN vin true =
      { isValid := true, chassisType := some ChassisType.vin_iso3779,
        errors := [], checksumValid := some true } := by
  by_cases hlen : vin.length = 17
  case neg => simp [ChassisValidator.validateVIN, hlen] at h
  by_cases halpha : vin.all ChassisValidator.isAlphanumericChar
  case neg => simp [ChassisValidator.validateVIN, hlen, halpha] at h
  by_cases hforb : ∀ a ∈ vin, a ∉ ChassisValidator.VIN_FORBIDDEN
  case neg =>
    have hne : List.filter (fun c => decide (c ∈ ChassisValidator.VIN_FORBIDDEN)) vin ≠ [] := by
      simpa [List.filter_eq_nil_iff] using hforb
    have hpos : 0 < (List.filter (fun c => decide (c ∈ ChassisValidator.VIN_FORBIDDEN)) vin).length :=
      List.length_pos.mpr hne
    simp [ChassisValidator.validateVIN, hlen, halpha, hforb, hpos] at h
  have hnil : List.filter (fun c => decide (c ∈ ChassisValidator.VIN_FORBIDDEN)) vin = [] := by
    simpa [List.filter_eq_nil_iff] using hforb
  have hb : 8 < vin.length := by omega
  rcases hck : ChassisValidator.calculateVINChecksum vin with msg | calculated
  · simp [ChassisValidator.validateVIN, hlen, halpha, hforb, hnil, hck] at h
  by_cases heq : calculated = vin[8].toUpper
  · simp [ChassisValidator.validateVIN, hlen, halpha, hforb, hnil, hck, heq]
  · simp [ChassisValidator.validateVIN, hlen, halpha, hforb, hnil, hck, heq] at h

theorem calculateVINChecksum_ok_length (v : Str) (c : Char)
    (h : ChassisValidator.calculateVINChecksum v = .ok c) : v.length = 17 := by
  by_cases hl : v.length = 17
  · exact hl
  · simp [ChassisValidator.calculateVINChecksum, hl] at h

theorem generate_ok_shape (wmi vds plant : Str) (year : Nat) (sequence : Int) (vo : Bool)
    (vin : Str) (h : VINGenerator.generate wmi vds year plant sequence vo = .ok vin) :
    ∃ yearCode checksum,
      VINGenerator.YEAR_CODES year = some yearCode ∧
      vin = wmi.map Char.toUpper ++ vds.map Char.toUpper ++ [checksum] ++
        [yearCode.toUpper] ++ plant.map Char.toUpper ++
        VINGenerator.padStart (Nat.toDigits 10 sequence.toNat) 6 '0' ∧
      wmi.length = 3 ∧ vds.length = 5 ∧ plant.length = 1 ∧
      1 ≤ sequence ∧ sequence ≤ 999999 ∧
      (VINGenerator.padStart (Nat.toDigits 10 sequence.toNat) 6 '0').length = 6 ∧
      (vo = true → (ChassisValidator.validateVIN vin true).isValid = true) := by
  unfold VINGenerator.generate at h
  split at h
  · exact absurd h (by simp)
  next hw3 =>
  split at h
  · exact absurd h (by simp)
  next hv5 =>
  split at h
  · exact absurd h (by simp)
  next yearCode hyc =>
  split at h
  · exact absurd h (by simp)
  next hp1 =>
  split at h
  · exact absurd h (by simp)
  next hrange =>
  rcases hck : ChassisValidator.calculateVINChecksum
      (wmi.map Char.toUpper ++ vds.map Char.toUpper ++ ['X'] ++ [yearCode.toUpper] ++
        plant.map Char.toUpper ++ VINGenerator.padStart (Nat.toDigits 10 sequence.toNat) 6 '0')
    with msg | checksum
  · simp only [hck] at h
    exact absurd h (by simp)
  · simp only [hck] at h
    have hw3 : wmi.length = 3 := by omega
    have hv5 : vds.length = 5 := by omega
    have hp1 : plant.length = 1 := by omega
    have hlo : 1 ≤ sequence := by omega
    have hhi : sequence ≤ 999999 := by omega
    have hpad : (VINGenerator.padStart (Nat.toDigits 10 sequence.toNat) 6 '0').length = 6 := by
      have h17 := calculateVINChecksum_ok_length _ _ hck
      simp [List.length_append, List.length_map, hw3, hv5, hp1] at h17
      omega
    refine ⟨yearCode, checksum, hyc, ?_⟩
    rcases vo with _ | _
    · simp only [Bool.false_eq_true, if_false] at h
      have hvin : vin = _ := (Except.ok.injEq _ _).mp h.symm
      exact ⟨hvin, hw3, hv5, hp1, hlo, hhi, hpad, by simp⟩
    · simp only [if_true] at h
      split at h
      next hvalid =>
        have hvin : vin = _ := (Except.ok.injEq _ _).mp h.symm
        subst hvin
        exact ⟨rfl, hw3, hv5, hp1, hlo, hhi, hpad, fun _ => hvalid⟩
      next hvalid => exact absurd h (by simp)

theorem drop_len_append (l t : Str) (n m : Nat) (h : l.length = n) :
    (l ++ t).drop (n + m) = t.drop m := by
  subst h
  rw [← List.drop_drop, List.drop_left]

theorem drop11_shape (a b p s : Str) (c y : Char)
    (ha : a.length = 3) (hb : b.length = 5) (hp : p.length = 1) :
    (a ++ b ++ [c] ++ [y] ++ p ++ s).drop 11 = s := by
  have h1 : a ++ b ++ [c] ++ [y] ++ p ++ s
      = a ++ (b ++ ([c] ++ ([y] ++ (p ++ s)))) := by simp [List.append_assoc]
  rw [h1, show (11 : Nat) = 3 + 8 by rfl, drop_len_append a _ 3 8 ha,
    show (8 : Nat) = 5 + 3 by rfl, drop_len_append b _ 5 3 hb,
    show (3 : Nat) = 1 + 2 by rfl, drop_len_append [c] _ 1 2 rfl,
    show (2 : Nat) = 1 + 1 by rfl, drop_len_append [y] _ 1 1 rfl,
    show (1 : Nat) = 1 + 0 by rfl, drop_len_append p _ 1 0 hp,
    List.drop_zero]

theorem generate_ok_fields (wmi vds plant : Str) (year : Nat) (sequence : Int) (vo : Bool)
    (vin : Str) (h : VINGenerator.generate wmi vds year plant sequence vo = .ok vin) :
    vin.length = 17 ∧
    vin.drop 11 = VINGenerator.padStart (Nat.toDigits 10 sequence.toNat) 6 '0' ∧
    (vin.drop 11).length = 6 := by
  obtain ⟨yc, ck, hyc, hvin, hw, hv, hp, _, _, hpad, _⟩ := generate_ok_shape _ _ _ _ _ _ _ h
  have hw2 : (wmi.map Char.toUpper).length = 3 := by simpa using hw
  have hv2 : (vds.map Char.toUpper).length = 5 := by simpa using hv
  have hp2 : (plant.map Char.toUpper).length = 1 := by simpa using hp
  subst hvin
  refine ⟨?_, ?_, ?_⟩
  · simp [List.length_append, hw, hv, hp, hpad]
  · exact drop11_shape _ _ _ _ _ _ hw2 hv2 hp2
  · rw [drop11_shape _ _ _ _ _ _ hw2 hv2 hp2]
    exact hpad

/-! ## C4: assemble then validate yields valid with no errors -/

/-- C4: whenever `VINGenerator.generate` (with its default output validation)
returns a code, validating that code with `ChassisValidator.validateVIN`
yields `isValid = true` with an empty error list (and a confirmed checksum). -/
theorem generate_then_validateVIN_valid (wmi vds plant : Str) (year : Nat) (sequence : Int)
    (vin : Str) (h : VINGenerator.generate wmi vds year plant sequence true = .ok vin) :
    ChassisValidator.validateVIN vin true =
      { isValid := true, chassisType := some ChassisType.vin_iso3779,
        errors := [], checksumValid := some true } := by
  obtain ⟨yc, ck, _, _, _, _, _, _, _, _, hvalid⟩ := generate_ok_shape _ _ _ _ _ _ _ h
  exact validateVIN_of_isValid vin (hvalid rfl)

theorem generate_then_validateVIN_valid_witness :
    VINGenerator.generate ['L', 'Z', 'S'] ['H', 'C', 'K', 'Z', 'S'] 2028 ['S'] 1 true
      = .ok ['L', 'Z', 'S', 'H', 'C', 'K', 'Z', 'S', '3', 'W', 'S', '0', '0', '0', '0', '0', '1'] ∧
    ChassisValidator.validateVIN
        ['L', 'Z', 'S', 'H', 'C', 'K', 'Z', 'S', '3', 'W', 'S', '0', '0', '0', '0', '0', '1'] true
      = { isValid := true, chassisType := some ChassisType.vin_iso3779,
          errors := [], checksumValid := some true } :=
  ⟨by rfl, generate_then_validateVIN_valid ['L', 'Z', 'S'] ['H', 'C', 'K', 'Z', 'S'] ['S']
    2028 1 ['L', 'Z', 'S', 'H', 'C', 'K', 'Z', 'S', '3', 'W', 'S', '0', '0', '0', '0', '0', '1']
    (by rfl)⟩

/-! ## C6: sequence range check and zero-padded rendering -/

/-- C6: with the other fields well-formed, `VINGenerator.generate` rejects any
sequence outside 1..999999 with the dedicated range error before producing any
code, and any code it does return is 17 characters long and carries the
sequence as exactly 6 left-zero-padded decimal digits at positions 12-17
(indices 11..16, i.e. `List.drop 11`). -/
theorem generate_sequence_range_and_padding (wmi vds plant : Str) (year : Nat) (yearCode : Char)
    (sequence : Int) (hw : wmi.length = 3) (hv : vds.length = 5)
    (hy : VINGenerator.YEAR_CODES year = some yearCode) (hp : plant.length = 1) :
    ((sequence < 1 ∨ 999999 < sequence) →
      VINGenerator.generate wmi vds year plant sequence true
        = .error GenError.sequenceOutOfRange) ∧
    ∀ vin, VINGenerator.generate wmi vds year plant sequence true = .ok vin →
      vin.length = 17 ∧
      vin.drop 11 = VINGenerator.padStart (Nat.toDigits 10 sequence.toNat) 6 '0' ∧
      (vin.drop 11).length = 6 := by
  constructor
  · intro hr
    simp [VINGenerator.generate, hw, hv, hy, hp, hr]
  · intro vin h
    exact generate_ok_fields _ _ _ _ _ _ _ h

theorem generate_sequence_range_and_padding_witness :
    VINGenerator.generate ['L', 'Z', 'S'] ['H', 'C', 'K', 'Z', 'S'] 2028 ['S'] 1000000 true
      = .error GenError.sequenceOutOfRange ∧
    (['L', 'Z', 'S', 'H', 'C', 'K', 'Z', 'S', '3', 'W', 'S', '0', '0', '0', '0', '0', '1'] : Str).drop 11
      = VINGenerator.padStart (Nat.toDigits 10 ((1 : Int)).toNat) 6 '0' :=
  ⟨(generate_sequence_range_and_padding ['L', 'Z', 'S'] ['H', 'C', 'K', 'Z', 'S'] ['S']
      2028 'W' 1000000 rfl rfl rfl rfl).1 (Or.inr (by decide)),
   ((generate_sequence_range_and_padding ['L', 'Z', 'S'] ['H', 'C', 'K', 'Z', 'S'] ['S']
      2028 'W' 1 rfl rfl rfl rfl).2
      ['L', 'Z', 'S', 'H', 'C', 'K', 'Z', 'S', '3', 'W', 'S', '0', '0', '0', '0', '0', '1']
      (by rfl)).2.1⟩

/-! ## C3: batch generation consumes a contiguous sequence range -/

theorem createUniqueVINBatch_ok (wmi vds plant : Str) (year : Nat) (yearCode : Char)
    (hy : VINGenerator.YEAR_CODES year = some yearCode) (q : Nat) :
    ∀ (s : Store) (vins : List Str) (s2 : Store),
      ChassisFactory.createUniqueVINBatch wmi vds year plant q s = (.ok vins, s2) →
      vins.length = q ∧
      ChassisSequenceManager.getCurrentSequence s2 (wmi ++ vds ++ [yearCode] ++ plant)
        = ChassisSequenceManager.getCurrentSequence s (wmi ++ vds ++ [yearCode] ++ plant) + q ∧
      ∀ i, i < q →
        VINGenerator.generate wmi vds year plant
          ((ChassisSequenceManager.getCurrentSequence s (wmi ++ vds ++ [yearCode] ++ plant) : Int)
            + i + 1) true
          = .ok (vins.getD i []) := by
  induction q with
  | zero =>
    intro s vins s2 h
    simp only [ChassisFactory.createUniqueVINBatch, Prod.mk.injEq, Except.ok.injEq] at h
    obtain ⟨h1, h2⟩ := h
    subst h1; subst h2
    exact ⟨rfl, rfl, fun i hi => absurd hi (by omega)⟩
  | succ q ih =>
    intro s vins s2 h
    simp only [ChassisFactory.createUniqueVINBatch, ChassisFactory.createUniqueVIN, hy] at h
    rcases hg : VINGenerator.generate wmi vds year plant
        ((ChassisSequenceManager.getNextSequence s (wmi ++ vds ++ [yearCode] ++ plant)).1 : Int)
        true with e | vin
    · rw [hg] at h
      simp at h
    · rw [hg] at h
      dsimp only at h
      rcases hb : ChassisFactory.createUniqueVINBatch wmi vds year plant q
          (ChassisSequenceManager.getNextSequence s
            (wmi ++ vds ++ [yearCode] ++ plant)).2.2 with ⟨res, s3⟩
      rw [hb] at h
      rcases res with e | vins2
      · simp at h
      · simp only [Prod.mk.injEq, Except.ok.injEq] at h
        obtain ⟨hv, hs⟩ := h
        subst hv
        subst hs
        obtain ⟨ihlen, ihcur, ihidx⟩ := ih _ _ _ hb
        have cNext : ChassisSequenceManager.getCurrentSequence
            (ChassisSequenceManager.getNextSequence s
              (wmi ++ vds ++ [yearCode] ++ plant)).2.2 (wmi ++ vds ++ [yearCode] ++ plant)
            = ChassisSequenceManager.getCurrentSequence s
              (wmi ++ vds ++ [yearCode] ++ plant) + 1 := by
          simp [ChassisSequenceManager.getNextSequence,
            ChassisSequenceManager.getCurrentSequence, storeGet_storeSet_self]
        rw [cNext] at ihcur ihidx
        refine ⟨by simp [ihlen], by rw [ihcur]; omega, ?_⟩
        intro i hi
        rcases i with _ | j
        · have harg : ((ChassisSequenceManager.getCurrentSequence s
              (wmi ++ vds ++ [yearCode] ++ plant) : Int) + ((0 : Nat) : Int) + 1)
              = ((ChassisSequenceManager.getCurrentSequence s
                  (wmi ++ vds ++ [yearCode] ++ plant) + 1 : Nat) : Int) := by
            push_cast
            ring
          rw [harg]
          exact hg
        · have harg : ((ChassisSequenceManager.getCurrentSequence s
              (wmi ++ vds ++ [yearCode] ++ plant) : Int) + ((j + 1 : Nat) : Int) + 1)
              = ((ChassisSequenceManager.getCurrentSequence s
                  (wmi ++ vds ++ [yearCode] ++ plant) + 1 : Nat) : Int) + (j : Int) + 1 := by
            push_cast
            ring
          rw [harg]
          have := ihidx j (by omega)
          simpa using this

/-- C3: whenever `VINService.generateVINs` returns (single-threaded, no
interleaving callers), the metadata satisfies
endSequence - startSequence + 1 = quantity with startSequence ≥ 1, exactly
quantity codes are returned, and the i-th code is 17 characters long and
embeds the sequence number startSequence + i as 6 left-zero-padded decimal
digits at positions 12-17 — the codes correspond 1:1 in order to the
consecutively allocated sequence numbers. -/
theorem generateVINs_contiguous_batch (quantity : Nat) (wmi vds plantCode : Str) (year : Nat)
    (s s2 : Store) (vins : List Str) (md : VINGenerationMetadata)
    (h : VINService.generateVINs quantity wmi vds year plantCode s = (.ok (vins, md), s2)) :
    md.quantity = quantity ∧
    (md.endSequence : Int) - md.startSequence + 1 = (quantity : Int) ∧
    1 ≤ md.startSequence ∧
    vins.length = quantity ∧
    ∀ i, i < quantity →
      (vins.getD i []).length = 17 ∧
      (vins.getD i []).drop 11
        = VINGenerator.padStart (Nat.toDigits 10 (md.startSequence + i).toNat) 6 '0' := by
  unfold VINService.generateVINs at h
  split at h
  · exact absurd h (by simp)
  next hq =>
  split at h
  · exact absurd h (by simp)
  next hw =>
  split at h
  · exact absurd h (by simp)
  next hv =>
  split at h
  · exact absurd h (by simp)
  next yearCode hy =>
  split at h
  · exact absurd h (by simp)
  next hp =>
  rcases hb : ChassisFactory.createUniqueVINBatch wmi vds year plantCode quantity s
    with ⟨res, sb⟩
  rw [hb] at h
  rcases res with e | vins0
  · simp at h
  · simp only [Prod.mk.injEq, Except.ok.injEq] at h
    obtain ⟨⟨hv1, hm⟩, hs⟩ := h
    subst hv1
    subst hm
    subst hs
    obtain ⟨hlen, hcur, hidx⟩ :=
      createUniqueVINBatch_ok wmi vds plantCode year yearCode hy quantity s vins0 sb hb
    dsimp only
    rw [hcur]
    refine ⟨rfl, by push_cast; ring, by push_cast; omega, hlen, ?_⟩
    intro i hi
    have hgen := hidx i hi
    obtain ⟨h17, hdrop, _⟩ := generate_ok_fields _ _ _ _ _ _ _ hgen
    have hAB : ((ChassisSequenceManager.getCurrentSequence s
          (wmi ++ vds ++ [yearCode] ++ plantCode) + quantity : Nat) : Int)
          - (quantity : Int) + 1 + (i : Int)
        = ((ChassisSequenceManager.getCurrentSequence s
          (wmi ++ vds ++ [yearCode] ++ plantCode) : Nat) : Int) + (i : Int) + 1 := by
      push_cast
      ring
    rw [hAB]
    exact ⟨h17, hdrop⟩

theorem generateVINs_contiguous_batch_witness :
    VINService.generateVINs 5 ['L', 'Z', 'S'] ['H', 'C', 'K', 'Z', 'S'] 2028 ['S'] []
      = (.ok ([vinW1, vinW2, vinW3, vinW4, vinW5], mdW),
         [(['L', 'Z', 'S', 'H', 'C', 'K', 'Z', 'S', 'W', 'S'], 5)]) ∧
    mdW.startSequence = 1 ∧ mdW.endSequence = 5 ∧
    vinW1.drop 11 = ['0', '0', '0', '0', '0', '1'] ∧
    vinW5.drop 11 = ['0', '0', '0', '0', '0', '5'] ∧
    (mdW.quantity = 5 ∧
      (mdW.endSequence : Int) - mdW.startSequence + 1 = (5 : Int) ∧
      1 ≤ mdW.startSequence ∧
      ([vinW1, vinW2, vinW3, vinW4, vinW5].length = 5) ∧
      ∀ i, i < 5 →
        ([vinW1, vinW2, vinW3, vinW4, vinW5].getD i []).length = 17 ∧
        ([vinW1, vinW2, vinW3, vinW4, vinW5].getD i []).drop 11
          = VINGenerator.padStart (Nat.toDigits 10 (mdW.startSequence + i).toNat) 6 '0') :=
  ⟨by rfl, by rfl, by rfl, by rfl, by rfl,
   generateVINs_contiguous_batch 5 ['L', 'Z', 'S'] ['H', 'C', 'K', 'Z', 'S'] ['S'] 2028 []
     [(['L', 'Z', 'S', 'H', 'C', 'K', 'Z', 'S', 'W', 'S'], 5)]
     [vinW1, vinW2, vinW3, vinW4, vinW5] mdW (by rfl)⟩

/-! ## C5: which rejections leave the counters untouched -/

/-- C5 counterexample: a concrete valid request (quantity 1, well-formed
fields, supported year) against a store whose counter for the request's prefix
is 999999 is rejected with the sequence-out-of-range validation error, yet the
prefix's counter has been mutated from 999999 to 1000000 by the call — the
rejection is not raised before the counter mutation, contradicting the claim
for the out-of-range-sequence case. -/
theorem sequence_rejection_burns_counter :
    storeGet [(['L', 'Z', 'S', 'H', 'C', 'K', 'Z', 'S', 'W', 'S'], 999999)]
        ['L', 'Z', 'S', 'H', 'C', 'K', 'Z', 'S', 'W', 'S'] = some 999999 ∧
    (VINService.generateVINs 1 ['L', 'Z', 'S'] ['H', 'C', 'K', 'Z', 'S'] 2028 ['S']
        [(['L', 'Z', 'S', 'H', 'C', 'K', 'Z', 'S', 'W', 'S'], 999999)]).1
      = .error (VINServiceError.gen GenError.sequenceOutOfRange) ∧
    storeGet (VINService.generateVINs 1 ['L', 'Z', 'S'] ['H', 'C', 'K', 'Z', 'S'] 2028 ['S']
        [(['L', 'Z', 'S', 'H', 'C', 'K', 'Z', 'S', 'W', 'S'], 999999)]).2
        ['L', 'Z', 'S', 'H', 'C', 'K', 'Z', 'S', 'W', 'S'] = some 1000000 ∧
    (1000000 : Nat) ≠ 999999 :=
  ⟨rfl, rfl, rfl, by decide⟩

/-- C5 amended: every rejection of `VINService.generateVINs` at the
request-validation level (out-of-range quantity, wrong wmi/vds/plant-code
length, unsupported year — everything except the errors propagated from the
generation phase) is raised before any counter mutation: the store is returned
exactly as it was.  A sequence-out-of-range rejection, which arises when a
prefix counter has already passed 999999, is excluded: it occurs after the
counter increment has been applied and persisted. -/
theorem request_validation_errors_no_mutation (quantity : Nat) (wmi vds plantCode : Str)
    (year : Nat) (s s2 : Store) (e : VINServiceError)
    (h : VINService.generateVINs quantity wmi vds year plantCode s = (.error e, s2))
    (hreq : ∀ g, e ≠ VINServiceError.gen g) :
    s2 = s := by
  unfold VINService.generateVINs at h
  split at h
  · exact ((Prod.ext_iff.mp h).2).symm
  split at h
  · exact ((Prod.ext_iff.mp h).2).symm
  split at h
  · exact ((Prod.ext_iff.mp h).2).symm
  split at h
  · exact ((Prod.ext_iff.mp h).2).symm
  next yearCode hy =>
  split at h
  · exact ((Prod.ext_iff.mp h).2).symm
  rcases hb : ChassisFactory.createUniqueVINBatch wmi vds year plantCode quantity s
    with ⟨res, sb⟩
  rw [hb] at h
  rcases res with e0 | vins0
  · obtain ⟨h1, h2⟩ := Prod.ext_iff.mp h
    exact absurd (Except.error.injEq .. |>.mp h1).symm (hreq e0)
  · exact absurd (Prod.ext_iff.mp h).1 (by simp)

theorem request_validation_errors_no_mutation_witness :
    VINService.generateVINs 0 ['L', 'Z', 'S'] ['H', 'C', 'K', 'Z', 'S'] 2028 ['S'] [(['A'], 5)]
      = (.error VINServiceError.quantityRange, [(['A'], 5)]) ∧
    ([(['A'], 5)] : Store) = [(['A'], 5)] :=
  ⟨rfl, request_validation_errors_no_mutation 0 ['L', 'Z', 'S'] ['H', 'C', 'K', 'Z', 'S'] ['S']
    2028 [(['A'], 5)] [(['A'], 5)] VINServiceError.quantityRange rfl (fun g hg => by cases hg)⟩

end ChassisXml
